import Mathlib

/-!
Verification of the orchestration gateway of this repository against its
specification. The development shallowly embeds the decisive code paths of
`src/orchestrator/main.py` (connection manager, tool router, tool invoker,
chat tool loop) and `src/bridge.py` (stdio-to-HTTP transport bridge).

Python strings are embedded as `List Char`; machine-level details (asyncio
scheduling, network I/O) are abstracted into explicit environment oracles,
while every branch decision and every produced value follows the source.
-/

/-- Python strings are modelled as lists of characters. -/
abbrev Str := List Char

/-- An ASCII-whitespace test mirroring the characters `str.strip()` removes
(space, tab, newline, carriage return, vertical tab, form feed); the claims
only exercise ASCII data. -/
def isPySpace (c : Char) : Bool :=
  c == ' ' || c == '\t' || c == '\n' || c == Char.ofNat 13 ||
    c == Char.ofNat 11 || c == Char.ofNat 12

/-- Python `str.strip()`: drop leading and trailing whitespace. -/
def pyStrip (s : Str) : Str :=
  ((s.dropWhile isPySpace).reverse.dropWhile isPySpace).reverse

/-- Python `str.lower()` restricted to ASCII case mapping (the error texts
inspected by the invoker are ASCII). -/
def pyLower (s : Str) : Str :=
  s.map Char.toLower

/-- Fuel-driven core of Python `str.replace`: replace non-overlapping
occurrences of `pat` left to right. Fuel is consumed once per character of
the scanned string, so `s.length` fuel always suffices; the fuel-0 case is
unreachable from `replaceSub`. -/
def replaceSubFuel : Nat → Str → Str → Str → Str
  | 0, s, _, _ => s
  | fuel + 1, s, pat, rep =>
    match s with
    | [] => []
    | c :: rest =>
      if pat ≠ [] ∧ pat.isPrefixOf (c :: rest) = true then
        rep ++ replaceSubFuel fuel (List.drop pat.length (c :: rest)) pat rep
      else
        c :: replaceSubFuel fuel rest pat rep

/-- Python `s.replace(pat, rep)` for a non-empty `pat`. -/
def replaceSub (s pat rep : Str) : Str :=
  replaceSubFuel s.length s pat rep

/-- The literal pattern produced by the ASCII-mangled smart-quote line of
`call_tool` (src/orchestrator/main.py line 239). The source bytes are all
ASCII, so `clean_text.replace(""", '"').replace(""", '"')` tokenizes as a
triple-quoted string: the call is a single
`clean_text.replace(<this pattern>, <double quote>)`. -/
def mangledQuotePat : Str :=
  [',', ' ', Char.ofNat 39, Char.ofNat 34, Char.ofNat 39,
   ')', '.', 'r', 'e', 'p', 'l', 'a', 'c', 'e', '(']

/-- The sanitization chain of `call_tool` (src/orchestrator/main.py lines
236-241): drop NUL and CR, apply the mangled smart-quote replacement, two
no-op apostrophe replacements (line 240 is likewise ASCII-mangled), and map
en/em dashes to a hyphen. -/
def sanitize (s : Str) : Str :=
  let s1 := replaceSub s [Char.ofNat 0] []
  let s2 := replaceSub s1 [Char.ofNat 13] []
  let s3 := replaceSub s2 mangledQuotePat [Char.ofNat 34]
  let s4 := replaceSub s3 [Char.ofNat 39] [Char.ofNat 39]
  let s5 := replaceSub s4 [Char.ofNat 39] [Char.ofNat 39]
  let s6 := replaceSub s5 [Char.ofNat 0x2013] [Char.ofNat 45]
  replaceSub s6 [Char.ofNat 0x2014] [Char.ofNat 45]

/-- A heterogeneous tool-result content item as inspected by `call_tool`
(src/orchestrator/main.py lines 218-232): an object carrying a `type`
attribute and a `text` attribute (an absent or empty text attribute is
modelled as the empty string), a mapping with a `text` key, or any other
shape (dropped). -/
inductive Content where
  | obj (type : Str) (text : Str)
  | dict (text : Str)
  | other
deriving DecidableEq

/-- The raw text `call_tool` extracts from one content item before
sanitization: case A (object with a truthy `text`), case B (mapping with a
`text` key), case C (object with `type == "text"`, whose `getattr` fallback
yields the same empty string the truthiness test then drops). -/
def rawTextOf : Content → Str
  | .obj _ s => s
  | .dict s => s
  | .other => []

/-- The extraction loop of `call_tool` (src/orchestrator/main.py lines
215-244): for each item take its raw text, skip falsy text, sanitize, and
keep the sanitized text when its strip is non-empty. -/
def extractTexts : List Content → List Str
  | [] => []
  | c :: rest =>
    let raw := rawTextOf c
    let tail := extractTexts rest
    if raw = [] then tail
    else
      let cl := sanitize raw
      if pyStrip cl = [] then tail else cl :: tail

/-- The truncation marker appended by `call_tool`
(src/orchestrator/main.py line 257). -/
def truncMarker : Str := "\n...[Output truncated for speed]...".data

/-- Steps 6 of the invoker (src/orchestrator/main.py lines 252-257): join
the extracted fragments with a blank line; past 4000 characters truncate
and append the marker. -/
def combineAndTruncate (texts : List Str) : Str :=
  let combined := List.intercalate "\n\n".data texts
  if combined.length > 4000 then combined.take 4000 ++ truncMarker
  else combined

/-- The fixed placeholder returned when no fragment yields text
(src/orchestrator/main.py line 249). -/
def noContentText : Str :=
  "[Process finished, but no readable text content was returned by the tool.]".data

/-- The text of the single `TextContent` returned by a successful
`call_tool` attempt (src/orchestrator/main.py lines 246-267). -/
def callToolSuccessText (content : List Content) : Str :=
  let texts := extractTexts content
  if texts = [] then noContentText else combineAndTruncate texts


/-! ## Tool Invoker (`call_tool`, src/orchestrator/main.py lines 179-285)

The asynchronous environment is abstracted into an oracle: for each loop
attempt it reports whether `get_session` produced a session and, if so, the
outcome of `session.call_tool` under `asyncio.wait_for`. -/

/-- Outcome of one downstream `session.call_tool` invocation: a content
list, an `asyncio.TimeoutError` from `wait_for`, or any other exception
carrying its `str(e)` text. -/
inductive CallOutcome where
  | ok (content : List Content)
  | timeout
  | exc (msg : Str)
deriving DecidableEq

/-- Observable events of the execution loop, tagged with the loop attempt
number: the result of `get_session`, a downstream `session.call_tool`
invocation, and a `disconnect_service` call. -/
inductive Ev where
  | gotSession (attempt : Nat) (ok : Bool)
  | callAttempt (attempt : Nat) (o : CallOutcome)
  | disconnect (attempt : Nat)
deriving DecidableEq

/-- Result of `call_tool`: a returned `[TextContent(...)]` reply (success,
timeout error text, or system error text), a raised `ValueError`
(tool not found), or a raised `RuntimeError` (attempts exhausted). -/
inductive CallResult where
  | reply (text : Str)
  | valueErr (msg : Str)
  | runtimeErr (msg : Str)
deriving DecidableEq

/-- The user-facing timeout error text (src/orchestrator/main.py
line 272). -/
def timeoutErrText : Str :=
  "Error: The service took too long to retrieve the documents. Please try a more specific query.".data

/-- Python substring containment `needle in hay`. -/
def hasSub (needle : Str) : Str → Bool
  | [] => needle.isEmpty
  | c :: rest => needle.isPrefixOf (c :: rest) || hasSub needle rest

/-- The heuristic connection-failure test of the retry branch
(src/orchestrator/main.py line 279): `"connection" in str(e).lower()`. -/
def connIndicator (m : Str) : Bool :=
  hasSub "connection".data (pyLower m)

/-- The execution loop `for attempt in range(2)` of `call_tool`
(src/orchestrator/main.py lines 195-285), parametric in the list of
remaining attempt numbers. Each iteration: obtain a session (else
disconnect and continue); call the tool under the 25 s guard; a success
returns the processed text, a timeout returns the timeout error text, any
other exception retries after a disconnect when the text indicates a
connection failure and the attempt is the first, else returns a
`System Error` text. An exhausted loop raises `RuntimeError`. -/
def callToolGo (env : Nat → Option CallOutcome) (toolName : Str) :
    List Nat → CallResult × List Ev
  | [] =>
    (.runtimeErr ("Failed to execute tool ".data ++ toolName ++ " after retries.".data), [])
  | a :: rest =>
    match env a with
    | none =>
      let r := callToolGo env toolName rest
      (r.1, .gotSession a false :: .disconnect a :: r.2)
    | some (.ok content) =>
      (.reply (callToolSuccessText content),
       [.gotSession a true, .callAttempt a (.ok content)])
    | some .timeout =>
      (.reply timeoutErrText, [.gotSession a true, .callAttempt a .timeout])
    | some (.exc m) =>
      if connIndicator m = true ∧ a = 0 then
        let r := callToolGo env toolName rest
        (r.1, .gotSession a true :: .callAttempt a (.exc m) :: .disconnect a :: r.2)
      else
        (.reply ("System Error: ".data ++ m),
         [.gotSession a true, .callAttempt a (.exc m)])

/-- The tool-name-to-service mapping (`state.tool_map`), with Python-dict
last-write-wins realized by insertion at the front. -/
abbrev ToolMap := List (Str × Str)

/-- `tool_map.get(name)` / `route(tool_name)`: first match wins, which
together with front insertion models dict overwrite semantics. -/
def lookupTM : ToolMap → Str → Option Str
  | [], _ => none
  | (k, v) :: rest, t => if k = t then some v else lookupTM rest t

/-- The registration loop `for tool in result.tools: tool_map[tool.name] =
service` (src/orchestrator/main.py lines 60-61 and 165-166). -/
def registerTools (m : ToolMap) (svc : Str) (ts : List Str) : ToolMap :=
  ts.foldl (fun acc t => (t, svc) :: acc) m

/-- The discovery refresh `list_tools()` (src/orchestrator/main.py lines
152-177): iterate every configured service; a service for which a session
and a tool list were obtained (`adv` entry `some ts`) registers its tools,
a failed one contributes nothing to the map. -/
def listToolsRefresh (adv : List (Str × Option (List Str))) (m : ToolMap) : ToolMap :=
  adv.foldl (fun acc p => match p.2 with
    | some ts => registerTools acc p.1 ts
    | none => acc) m

/-- Top-level `call_tool` (src/orchestrator/main.py lines 179-285): resolve
the service in the tool map; on a miss run one full `list_tools()` refresh
and re-resolve; a second miss raises `ValueError`; otherwise run the
execution loop over attempts `[0, 1]`. The middle component counts the
discovery refreshes performed. -/
def call_tool (m : ToolMap) (adv : List (Str × Option (List Str)))
    (env : Nat → Option CallOutcome) (name : Str) : CallResult × Nat × List Ev :=
  match lookupTM m name with
  | some _ =>
    let r := callToolGo env name [0, 1]
    (r.1, 0, r.2)
  | none =>
    match lookupTM (listToolsRefresh adv m) name with
    | some _ =>
      let r := callToolGo env name [0, 1]
      (r.1, 1, r.2)
    | none => (.valueErr ("Tool ".data ++ name ++ " not found.".data), 1, [])

/-- Number of downstream `session.call_tool` invocations in a trace. -/
def numCalls (evs : List Ev) : Nat :=
  (evs.filter fun e => match e with | .callAttempt _ _ => true | _ => false).length

/-- The attempt number an event is tagged with. -/
def attemptOf : Ev → Nat
  | .gotSession a _ => a
  | .callAttempt a _ => a
  | .disconnect a => a


/-! ## Connection manager and tool router state
(`OrchestratorGlobal`, src/orchestrator/main.py lines 36-144)

The observable gateway state for the routing invariant: the set of service
names holding a live session (`state.sessions`) and the tool map
(`state.tool_map`). Background-task mechanics are abstracted; each
operation's net effect on these two tables follows the source. -/

/-- Gateway state: services with a live session, and the router map. -/
structure GState where
  sessions : List Str
  toolMap : ToolMap
deriving DecidableEq

/-- `disconnect_service(name)` (src/orchestrator/main.py lines 105-120):
the session entry for `name` is deleted; `tool_map` is not touched. -/
def disconnectService (s : GState) (name : Str) : GState :=
  { sessions := s.sessions.filter (fun n => !(n == name)), toolMap := s.toolMap }

/-- A successful `connect_service(name, url)` (src/orchestrator/main.py
lines 84-103): first `disconnect_service(name)`, then the background task
registers every advertised tool in `tool_map` and stores the session. -/
def connectServiceOk (s : GState) (name : Str) (ts : List Str) : GState :=
  let s0 := disconnectService s name
  { sessions := name :: s0.sessions, toolMap := registerTools s0.toolMap name ts }

/-- A failed `connect_service(name, url)`: the task fails before
registering any tool or storing the session, and `connect_service` runs
`disconnect_service(name)` again; net effect equals a disconnect. -/
def connectServiceFail (s : GState) (name : Str) : GState :=
  disconnectService s name

/-- States of the gateway reachable by sequences of connection-manager
operations (the `list_tools` / `call_tool` entry points drive exactly these
three effects on the two tables). -/
inductive Reachable : GState → Prop
  | init : Reachable { sessions := [], toolMap := [] }
  | connectOk (s : GState) (name : Str) (ts : List Str) :
      Reachable s → Reachable (connectServiceOk s name ts)
  | connectFail (s : GState) (name : Str) :
      Reachable s → Reachable (connectServiceFail s name)
  | disconnect (s : GState) (name : Str) :
      Reachable s → Reachable (disconnectService s name)

/-! ## Transport bridge (`bridge_loop`, src/bridge.py lines 21-124)

One iteration of the read loop, parametric in the parse outcome of the
inbound line and in the HTTP outcome of the upstream POST. -/

/-- A JSON-RPC request id (number or string); an absent `id` key is
`Option.none` at the use site, matching `request_data.get("id")`. -/
inductive RpcId where
  | num (n : Int)
  | str (s : Str)
deriving DecidableEq

/-- The parsed inbound JSON-RPC request object (only the fields the bridge
reads: `id` via `.get`, and `method`, which the bridge in fact never
inspects). -/
structure Req where
  id : Option RpcId
  method : Str
deriving DecidableEq

/-- One inbound line after `readline`/`strip`: end of input, a blank line,
a line `json.loads` rejects, or a parsed request object. -/
inductive InLine where
  | eof
  | empty
  | malformed
  | req (r : Req)
deriving DecidableEq

/-- The outcome of `client.post`: a response with status, optional
`Mcp-Session-Id` header and body text, or a raised `httpx.HTTPError`
carrying its `str(e)`. -/
inductive HttpOutcome where
  | resp (status : Nat) (sessionHeader : Option Str) (body : Str)
  | httpErr (msg : Str)
deriving DecidableEq

/-- A line written to stdout: a forwarded response body, or a constructed
JSON-RPC error reply `(jsonrpc "2.0", id, error (code, message))`. -/
inductive OutLine where
  | raw (body : Str)
  | errReply (id : Option RpcId) (code : Int) (message : Str)
deriving DecidableEq

/-- Whether the read loop continues or exits after the iteration. -/
inductive LoopAct where
  | cont
  | exit
deriving DecidableEq

/-- The stored session id after a response: a present `Mcp-Session-Id`
header replaces it (src/bridge.py lines 80-84; the equality guard there
changes nothing observable), otherwise it is kept. -/
def updSession (hdr : Option Str) (sid : Option Str) : Option Str :=
  match hdr with
  | some h => some h
  | none => sid

/-- Python `str(n)` for the status interpolation. -/
def natStr (n : Nat) : Str := (toString n).data

/-- One iteration of `bridge_loop` (src/bridge.py lines 41-124): EOF exits;
blank and malformed lines are skipped; a parsed request is POSTed, then a
200 response forwards its stripped body when non-empty, a 202 emits
nothing, any other status emits one error reply
`Server error: <status>` with the request's id, and a transport exception
emits one error reply with `str(e)`. The loop continues in every non-EOF
case. -/
def bridgeStep (sessionId : Option Str) (inb : InLine) (http : HttpOutcome) :
    Option Str × List OutLine × LoopAct :=
  match inb with
  | .eof => (sessionId, [], .exit)
  | .empty => (sessionId, [], .cont)
  | .malformed => (sessionId, [], .cont)
  | .req r =>
    match http with
    | .resp status hdr body =>
      let sid := updSession hdr sessionId
      if status = 200 then
        let t := pyStrip body
        (sid, if t = [] then [] else [.raw t], .cont)
      else if status = 202 then (sid, [], .cont)
      else
        (sid, [.errReply r.id (-32603) ("Server error: ".data ++ natStr status)], .cont)
    | .httpErr m => (sessionId, [.errReply r.id (-32603) m], .cont)


/-- A direct JSON response body. -/
def bodyDirect : Str := "\x7b\"result\":1\x7d".data

/-- An event-stream response body embedding the same JSON document after a
`data: ` line prefix. -/
def bodySse : Str := "event: message\ndata: \x7b\"result\":1\x7d\n".data

/-! ## Chat orchestrator tool execution
(`event_generator`, src/orchestrator/main.py lines 405-481) -/

/-- The parsed JSON arguments object (content is passed through to the
downstream call unchanged, so a flat key-value list suffices). -/
abbrev Args := List (Str × Str)

/-- Outcome of the chat-path downstream `session.call_tool`: a content
list, or an exception carrying its `str(e)`. -/
inductive ChatCallOutcome where
  | ok (content : List Content)
  | exc (msg : Str)
deriving DecidableEq

/-- A conversation message appended by the tool-execution block. -/
structure ChatMsg where
  role : Str
  tool_call_id : Str
  content : Str
deriving DecidableEq

/-- Observable chat-path events: a dispatched downstream call. -/
inductive ChatEv where
  | dispatched (fname : Str) (args : Args)
deriving DecidableEq

/-- Environment of one chat tool call: `json.loads` (an `Except.error`
carries the exception text), the router map, session availability per
service, and the downstream call per (service, tool, args). -/
structure ChatEnv where
  parseArgs : Str → Except Str Args
  toolMap : ToolMap
  hasSession : Str → Bool
  call : Str → Str → Args → ChatCallOutcome

/-- Text extraction of the chat path (src/orchestrator/main.py line 467):
`[c.text for c in result.content if c.type == "text"]`. Real results carry
typed objects; a mapping item would raise in Python and does not occur. -/
def chatExtract (content : List Content) : List Str :=
  content.filterMap fun c =>
    match c with
    | .obj t s => if t = "text".data then some s else none
    | _ => none

/-- One tool call of the chat loop's execution block
(src/orchestrator/main.py lines 442-481): parse the arguments, resolve the
service, obtain a session, dispatch, join the text items with newlines; any
exception (including a JSON parse failure) becomes
`Error executing tool <name>: <e>`; missing route and missing session
produce their fixed error texts. The produced message is appended with role
`tool` keyed by the call id. -/
def execToolCall (env : ChatEnv) (callId fname fargs : Str) : ChatMsg × List ChatEv :=
  match env.parseArgs fargs with
  | .error m =>
    (⟨"tool".data, callId, "Error executing tool ".data ++ fname ++ ": ".data ++ m⟩, [])
  | .ok arguments =>
    match lookupTM env.toolMap fname with
    | some svc =>
      if env.hasSession svc then
        match env.call svc fname arguments with
        | .ok content =>
          (⟨"tool".data, callId, List.intercalate "\n".data (chatExtract content)⟩,
           [.dispatched fname arguments])
        | .exc m =>
          (⟨"tool".data, callId, "Error executing tool ".data ++ fname ++ ": ".data ++ m⟩,
           [.dispatched fname arguments])
      else
        (⟨"tool".data, callId,
          "Error: Service ".data ++ svc ++ " unavailable for tool ".data ++ fname ++ ".".data⟩,
         [])
    | none =>
      (⟨"tool".data, callId, "Error: Tool ".data ++ fname ++ " not found.".data⟩, [])

/-- A chat environment whose argument parser always fails the way
`json.loads` fails on an empty string, while routing, session and the
downstream call for tool `f` on service `s` would all succeed. -/
def c9Env : ChatEnv :=
  ⟨fun _ => .error "Expecting value".data,
   [("f".data, "s".data)],
   fun _ => true,
   fun _ _ _ => .ok [.obj "text".data "ok".data]⟩

/-- A chat environment identical to `c9Env` except that parsing
succeeds with an empty argument object. -/
def c9EnvOk : ChatEnv :=
  ⟨fun _ => .ok [],
   [("f".data, "s".data)],
   fun _ => true,
   fun _ _ _ => .ok [.obj "text".data "ok".data]⟩

/-! ## Streaming tool-call accumulator
(`event_generator`, src/orchestrator/main.py lines 423-430) -/

/-- A streamed tool-call fragment delta: an optional index and optional
id / function-name / arguments chunks (`None` and the empty string are both
falsy in the source's guards, so an absent chunk is `none` and an empty one
`some []`). -/
structure Frag where
  index : Option Nat
  id : Option Str
  name : Option Str
  arguments : Option Str
deriving DecidableEq

/-- One accumulator entry `(id, function name, arguments buffer)`; a fresh
entry is appended as all-empty strings. -/
structure AccEntry where
  id : Str
  name : Str
  arguments : Str
deriving DecidableEq

/-- Python truthiness of a chunk: `None` and the empty string are falsy. -/
def truthyChunk : Option Str → Bool
  | some s => !s.isEmpty
  | none => false

/-- The guarded concatenation `if chunk: buf += chunk`. -/
def addChunk (cur : Str) (c : Option Str) : Str :=
  match c with
  | some s => if s ≠ [] then cur ++ s else cur
  | none => cur

/-- Apply one fragment's chunks to one accumulator entry. -/
def updateEntry (e : AccEntry) (f : Frag) : AccEntry :=
  ⟨addChunk e.id f.id, addChunk e.name f.name, addChunk e.arguments f.arguments⟩

/-- One step of the accumulator (src/orchestrator/main.py lines 425-430):
a fragment without an index is ignored; otherwise, when the accumulator is
no longer than the index, exactly one empty entry is appended, and then the
chunk guards `if tc.id:` / `if tc.function.name:` /
`if tc.function.arguments:` update the entry at the index. The source only
indexes inside those guards, so the `IndexError` on an index still out of
range after the single append (modelled as `none`) is raised only when at
least one chunk is truthy; with all chunks falsy the spurious appended
entry is kept and the loop continues. -/
def accumStep (acc : List AccEntry) (f : Frag) : Option (List AccEntry) :=
  match f.index with
  | none => some acc
  | some i =>
    let acc1 := if acc.length ≤ i then acc ++ [⟨[], [], []⟩] else acc
    if h : i < acc1.length then
      some (acc1.set i (updateEntry (acc1.get ⟨i, h⟩) f))
    else
      if truthyChunk f.id || truthyChunk f.name || truthyChunk f.arguments then
        none
      else
        some acc1


/-! ## Shared lemmas -/

/-- Joining a single fragment yields the fragment. -/
theorem intercalate_single (sep x : Str) : List.intercalate sep [x] = x := by
  simp [List.intercalate]

/-! ## C1: output truncation -/

/-- C1, counterexample. For the concrete single 5000-character fragment,
`call_tool` does not return the first 4000 characters followed by the
literal marker `...[truncated]...`: the marker the code appends is
`\n...[Output truncated for speed]...`. -/
theorem c1_counterexample :
    combineAndTruncate [List.replicate 5000 'a'] ≠
      (List.replicate 5000 'a').take 4000 ++ "...[truncated]...".data := by
  have e : combineAndTruncate [List.replicate 5000 'a'] =
      (List.replicate 5000 'a').take 4000 ++ truncMarker := by
    unfold combineAndTruncate
    rw [intercalate_single]
    rw [if_pos (by rw [List.length_replicate]; omega)]
  rw [e]
  intro h
  have h2 : truncMarker = "...[truncated]...".data := List.append_cancel_left h
  exact absurd h2 (by decide)

/-- C1, amended. Joining the extracted fragments with a blank-line
separator, a combined text longer than 4000 characters is returned as its
first 4000 characters followed by the literal marker
`\n...[Output truncated for speed]...`, and a combined text of length at
most 4000 is returned unchanged with no marker; this is the reply text of
every successful `call_tool` attempt with a non-empty fragment list. -/
theorem c1_truncation (env : Nat → Option CallOutcome) (name : Str)
    (content : List Content) (h : env 0 = some (.ok content))
    (hne : extractTexts content ≠ []) :
    (callToolGo env name [0, 1]).1 = .reply (combineAndTruncate (extractTexts content))
    ∧ (4000 < (List.intercalate "\n\n".data (extractTexts content)).length →
        combineAndTruncate (extractTexts content) =
          (List.intercalate "\n\n".data (extractTexts content)).take 4000 ++ truncMarker)
    ∧ ((List.intercalate "\n\n".data (extractTexts content)).length ≤ 4000 →
        combineAndTruncate (extractTexts content) =
          List.intercalate "\n\n".data (extractTexts content)) := by
  refine ⟨?_, ?_, ?_⟩
  · simp [callToolGo, h, callToolSuccessText, hne]
  · intro hlen
    unfold combineAndTruncate
    rw [if_pos (by omega)]
  · intro hlen
    unfold combineAndTruncate
    rw [if_neg (by omega)]

/-- Counting rules for traces. -/
theorem numCalls_nil : numCalls [] = 0 := rfl

theorem numCalls_gotSession (a : Nat) (b : Bool) (l : List Ev) :
    numCalls (.gotSession a b :: l) = numCalls l := by
  simp [numCalls, List.filter]

theorem numCalls_disconnect (a : Nat) (l : List Ev) :
    numCalls (.disconnect a :: l) = numCalls l := by
  simp [numCalls, List.filter]

theorem numCalls_callAttempt (a : Nat) (o : CallOutcome) (l : List Ev) :
    numCalls (.callAttempt a o :: l) = numCalls l + 1 := by
  simp [numCalls, List.filter]

/-- C1, witness: the amended theorem applied to a 2-character fragment. -/
theorem c1_truncation_witness :
    (callToolGo (fun _ => some (.ok [.obj "text".data "hi".data])) "t".data [0, 1]).1 =
      .reply (combineAndTruncate (extractTexts [.obj "text".data "hi".data]))
    ∧ combineAndTruncate (extractTexts [.obj "text".data "hi".data]) =
        List.intercalate "\n\n".data (extractTexts [.obj "text".data "hi".data]) := by
  have h := c1_truncation (fun _ => some (.ok [.obj "text".data "hi".data])) "t".data
    [.obj "text".data "hi".data] rfl (by decide)
  exact ⟨h.1, h.2.2 (by decide)⟩

/-! ## C2: retry discipline of the execution loop -/

/-- C2. Over the two-attempt loop: at most two downstream call attempts
happen in total; a first-attempt exception whose text does not indicate a
connection failure is returned as a `System Error` text after exactly one
call attempt; an event of the second attempt exists only when the first
attempt found no session or raised a connection-indicating exception; in
both those cases a `disconnect` of the routed service precedes the retry;
and when neither attempt obtains a session the call fails with the generic
`RuntimeError` naming the tool. -/
theorem c2_retry_discipline (env : Nat → Option CallOutcome) (name : Str) :
    numCalls (callToolGo env name [0, 1]).2 ≤ 2
    ∧ (∀ m, env 0 = some (.exc m) → connIndicator m = false →
        (callToolGo env name [0, 1]).1 = .reply ("System Error: ".data ++ m)
        ∧ numCalls (callToolGo env name [0, 1]).2 = 1)
    ∧ ((∃ e ∈ (callToolGo env name [0, 1]).2, attemptOf e = 1) →
        env 0 = none ∨ ∃ m, env 0 = some (.exc m) ∧ connIndicator m = true)
    ∧ ((env 0 = none ∨ ∃ m, env 0 = some (.exc m) ∧ connIndicator m = true) →
        Ev.disconnect 0 ∈ (callToolGo env name [0, 1]).2)
    ∧ (env 0 = none → env 1 = none →
        (callToolGo env name [0, 1]).1 =
          .runtimeErr ("Failed to execute tool ".data ++ name ++ " after retries.".data)) := by
  refine ⟨?_, ?_, ?_, ?_, ?_⟩
  · rcases h0 : env 0 with _ | o
    · rcases h1 : env 1 with _ | o1
      · simp [callToolGo, h0, h1, numCalls_gotSession, numCalls_disconnect, numCalls_nil]
      · rcases o1 with c1 | _ | m1 <;>
          simp [callToolGo, h0, h1, numCalls_gotSession, numCalls_disconnect,
            numCalls_callAttempt, numCalls_nil]
    · rcases o with c | _ | m
      · simp [callToolGo, h0, numCalls_gotSession, numCalls_callAttempt, numCalls_nil]
      · simp [callToolGo, h0, numCalls_gotSession, numCalls_callAttempt, numCalls_nil]
      · by_cases hc : connIndicator m = true
        · rcases h1 : env 1 with _ | o1
          · simp [callToolGo, h0, h1, hc, numCalls_gotSession, numCalls_disconnect,
              numCalls_callAttempt, numCalls_nil]
          · rcases o1 with c1 | _ | m1 <;>
              simp [callToolGo, h0, h1, hc, numCalls_gotSession, numCalls_disconnect,
                numCalls_callAttempt, numCalls_nil]
        · simp [callToolGo, h0, hc, numCalls_gotSession, numCalls_callAttempt, numCalls_nil]
  · intro m h0 hc
    constructor
    · simp [callToolGo, h0, hc]
    · simp [callToolGo, h0, hc, numCalls_gotSession, numCalls_callAttempt, numCalls_nil]
  · intro hex
    rcases h0 : env 0 with _ | o
    · exact Or.inl rfl
    · rcases o with c | _ | m
      · simp [callToolGo, h0, attemptOf] at hex
      · simp [callToolGo, h0, attemptOf] at hex
      · by_cases hc : connIndicator m = true
        · exact Or.inr ⟨m, rfl, hc⟩
        · simp [callToolGo, h0, hc, attemptOf] at hex
  · intro hcase
    rcases hcase with h0 | ⟨m, h0, hc⟩
    · simp [callToolGo, h0]
    · simp [callToolGo, h0, hc]
  · intro h0 h1
    simp [callToolGo, h0, h1]

/-- C2, witness: with no session obtainable on either attempt, the loop
exhausts and raises the generic execution error naming the tool. -/
theorem c2_retry_discipline_witness :
    (callToolGo (fun _ => none) "t".data [0, 1]).1 =
      .runtimeErr ("Failed to execute tool ".data ++ "t".data ++ " after retries.".data) :=
  (c2_retry_discipline (fun _ => none) "t".data).2.2.2.2 rfl rfl

/-! ## C3: timeout path -/

/-- C3. When the downstream call of a reached attempt exceeds the 25 s
guard, `call_tool` immediately returns the user-facing timeout error text,
performs no further attempt, and the trace of the invocation contains no
`disconnect`: the routed service's connection record is left intact. -/
theorem c3_timeout_no_retry (env : Nat → Option CallOutcome) (name : Str)
    (a : Nat) (rest : List Nat) (h : env a = some .timeout) :
    callToolGo env name (a :: rest) =
      (.reply timeoutErrText, [.gotSession a true, .callAttempt a .timeout])
    ∧ ∀ k, Ev.disconnect k ∉ (callToolGo env name (a :: rest)).2 := by
  have e : callToolGo env name (a :: rest) =
      (.reply timeoutErrText, [.gotSession a true, .callAttempt a .timeout]) := by
    simp [callToolGo, h]
  refine ⟨e, ?_⟩
  intro k
  rw [e]
  simp

/-- C3, witness: a first-attempt timeout on the two-attempt loop. -/
theorem c3_timeout_no_retry_witness :
    callToolGo (fun _ => some .timeout) "t".data [0, 1] =
      (.reply timeoutErrText, [.gotSession 0 true, .callAttempt 0 .timeout]) :=
  (c3_timeout_no_retry (fun _ => some .timeout) "t".data 0 [1] rfl).1

/-! ## C4: discovery refresh and ToolNotFound -/

/-- C4. When the tool name is not in the router mapping as `call_tool`
starts, exactly one full discovery refresh is performed, and if the name is
still unresolved afterwards the call raises the tool-not-found error with
an empty trace: no downstream call attempt is made. -/
theorem c4_discovery (m : ToolMap) (adv : List (Str × Option (List Str)))
    (env : Nat → Option CallOutcome) (name : Str) (h : lookupTM m name = none) :
    (call_tool m adv env name).2.1 = 1
    ∧ (lookupTM (listToolsRefresh adv m) name = none →
        (call_tool m adv env name).1 = .valueErr ("Tool ".data ++ name ++ " not found.".data)
        ∧ (call_tool m adv env name).2.2 = []) := by
  refine ⟨?_, ?_⟩
  · unfold call_tool
    rw [h]
    cases h2 : lookupTM (listToolsRefresh adv m) name <;> simp
  · intro h2
    unfold call_tool
    rw [h, h2]
    exact ⟨rfl, rfl⟩

/-- C4, witness: an empty router with an empty discovery result rejects the
tool with the tool-not-found error. -/
theorem c4_discovery_witness :
    (call_tool [] [] (fun _ => none) "x".data).1 =
      .valueErr ("Tool ".data ++ "x".data ++ " not found.".data) :=
  ((c4_discovery [] [] (fun _ => none) "x".data rfl).2 rfl).1

/-! ## C5: bridge error replies and malformed lines -/

/-- C5. A parsed request whose POST yields a status other than 200/202, or
raises a transport-level exception, produces exactly one JSON-RPC error
reply line carrying the request's id, while a malformed inbound line
produces no reply line; the read loop continues in all three cases. -/
theorem c5_bridge_error_replies :
    (∀ (sid : Option Str) (r : Req) (status : Nat) (hdr : Option Str) (body : Str),
        status ≠ 200 → status ≠ 202 →
        bridgeStep sid (.req r) (.resp status hdr body) =
          (updSession hdr sid,
           [.errReply r.id (-32603) ("Server error: ".data ++ natStr status)], .cont))
    ∧ (∀ (sid : Option Str) (r : Req) (m : Str),
        bridgeStep sid (.req r) (.httpErr m) =
          (sid, [.errReply r.id (-32603) m], .cont))
    ∧ (∀ (sid : Option Str) (http : HttpOutcome),
        bridgeStep sid .malformed http = (sid, [], .cont)) := by
  refine ⟨?_, ?_, ?_⟩
  · intro sid r status hdr body h200 h202
    simp [bridgeStep, h200, h202]
  · intro sid r m
    rfl
  · intro sid http
    rfl

/-- C5, witness: a 500 status on a request with id 7. -/
theorem c5_bridge_error_replies_witness :
    bridgeStep none (.req ⟨some (.num 7), "tools/call".data⟩) (.resp 500 none "x".data) =
      (none, [.errReply (some (.num 7)) (-32603) ("Server error: ".data ++ natStr 500)],
       .cont) :=
  c5_bridge_error_replies.1 none ⟨some (.num 7), "tools/call".data⟩ 500 none "x".data
    (by decide) (by decide)

/-! ## C6: response-body handling on the 200 path -/

/-- C6, counterexample. The bridge performs no `data: `-prefix extraction:
a direct JSON body and an event-stream body embedding the same JSON produce
different outbound reply lines, refuting the claimed identical result. -/
theorem c6_counterexample :
    (bridgeStep none (.req ⟨some (.num 1), "initialize".data⟩)
        (.resp 200 none bodySse)).2.1 ≠
      (bridgeStep none (.req ⟨some (.num 1), "initialize".data⟩)
        (.resp 200 none bodyDirect)).2.1 := by
  decide

/-- C6, amended. On the 200 path the bridge parses nothing: the stripped
response body is forwarded verbatim as the single outbound reply line
(whether it is a direct JSON document or an event-stream payload). -/
theorem c6_forward_verbatim (sid : Option Str) (r : Req) (hdr : Option Str)
    (body : Str) (h : pyStrip body ≠ []) :
    bridgeStep sid (.req r) (.resp 200 hdr body) =
      (updSession hdr sid, [.raw (pyStrip body)], .cont) := by
  simp [bridgeStep, h]

/-- C6, witness: the direct JSON body is forwarded verbatim. -/
theorem c6_forward_verbatim_witness :
    bridgeStep none (.req ⟨some (.num 1), "initialize".data⟩) (.resp 200 none bodyDirect) =
      (none, [.raw (pyStrip bodyDirect)], .cont) :=
  c6_forward_verbatim none ⟨some (.num 1), "initialize".data⟩ none bodyDirect (by decide)

/-! ## C7: notification handling -/

/-- C7, counterexample. An inbound line whose method lies in the
notification namespace still produces an outbound reply line when its POST
raises a transport error: the bridge applies no method-based special-casing,
refuting "never emits an outbound reply line". -/
theorem c7_counterexample :
    "notifications/".data.isPrefixOf "notifications/initialized".data = true
    ∧ (bridgeStep none (.req ⟨none, "notifications/initialized".data⟩)
        (.httpErr "connection refused".data)).2.1 ≠ [] := by
  decide

/-- C7, amended. The bridge never inspects the method: two requests with
equal ids are processed identically; a request answered 202 (the normal
upstream answer for a notification) produces no reply line; and a request
answered 200 with a non-empty body produces exactly one reply line, the
body forwarded verbatim. -/
theorem c7_method_blind :
    (∀ (sid : Option Str) (r r' : Req) (http : HttpOutcome), r.id = r'.id →
        bridgeStep sid (.req r) http = bridgeStep sid (.req r') http)
    ∧ (∀ (sid : Option Str) (r : Req) (hdr : Option Str) (body : Str),
        bridgeStep sid (.req r) (.resp 202 hdr body) = (updSession hdr sid, [], .cont))
    ∧ (∀ (sid : Option Str) (r : Req) (hdr : Option Str) (body : Str),
        pyStrip body ≠ [] →
        bridgeStep sid (.req r) (.resp 200 hdr body) =
          (updSession hdr sid, [.raw (pyStrip body)], .cont)) := by
  refine ⟨?_, ?_, ?_⟩
  · intro sid r r' http hid
    cases http with
    | resp status hdr body => simp [bridgeStep, hid]
    | httpErr m => simp [bridgeStep, hid]
  · intro sid r hdr body
    simp [bridgeStep]
  · intro sid r hdr body h
    simp [bridgeStep, h]

/-- C7, witness: a notification-method request answered 202 produces no
reply line, and a request-shaped line answered 200 produces one. -/
theorem c7_method_blind_witness :
    bridgeStep none (.req ⟨none, "notifications/initialized".data⟩)
        (.resp 202 none "".data) = (none, [], .cont)
    ∧ bridgeStep none (.req ⟨some (.num 2), "tools/list".data⟩)
        (.resp 200 none "ok".data) = (none, [.raw (pyStrip "ok".data)], .cont) :=
  ⟨c7_method_blind.2.1 none ⟨none, "notifications/initialized".data⟩ none "".data,
   c7_method_blind.2.2 none ⟨some (.num 2), "tools/list".data⟩ none "ok".data (by decide)⟩

/-! ## C8: routing invariant -/

/-- C8, counterexample. The state obtained by connecting the `leave`
service (which registers `apply_leave`) and then disconnecting it is
reachable, yet its router still resolves `apply_leave` to `leave` while no
session for `leave` exists: the claimed invariant fails. -/
theorem c8_counterexample :
    Reachable (disconnectService
        (connectServiceOk ⟨[], []⟩ "leave".data ["apply_leave".data]) "leave".data)
    ∧ lookupTM (disconnectService
        (connectServiceOk ⟨[], []⟩ "leave".data ["apply_leave".data]) "leave".data).toolMap
        "apply_leave".data = some "leave".data
    ∧ (disconnectService
        (connectServiceOk ⟨[], []⟩ "leave".data ["apply_leave".data]) "leave".data).sessions
        = [] := by
  refine ⟨Reachable.disconnect _ _ (Reachable.connectOk _ _ _ Reachable.init),
    by decide, by decide⟩

/-- Registration gives the registering service ownership of every tool it
advertises and leaves other lookups unchanged. -/
theorem lookup_registerTools (m : ToolMap) (svc : Str) (ts : List Str) (t : Str) :
    lookupTM (registerTools m svc ts) t = if t ∈ ts then some svc else lookupTM m t := by
  induction ts generalizing m with
  | nil => simp [registerTools]
  | cons x xs ih =>
    show lookupTM (registerTools ((x, svc) :: m) svc xs) t = _
    rw [ih]
    by_cases hx : t ∈ xs
    · simp [hx, List.mem_cons]
    · by_cases he : x = t
      · simp [lookupTM, hx, he, List.mem_cons]
      · simp [lookupTM, hx, he, List.mem_cons, Ne.symm he]

/-- C8, amended. The routing invariant holds at registration time but is
not preserved: immediately after a successful connect every advertised tool
routes to that service and the service holds a session, while a disconnect
removes the session and leaves the router mapping untouched — so stale
routes (cf. the counterexample) are possible by design and are compensated
by the invoker's reconnect attempt. -/
theorem c8_route_staleness (s : GState) (svc : Str) (ts : List Str) (name : Str) :
    (∀ t, t ∈ ts → lookupTM (connectServiceOk s svc ts).toolMap t = some svc)
    ∧ svc ∈ (connectServiceOk s svc ts).sessions
    ∧ (disconnectService s name).toolMap = s.toolMap
    ∧ name ∉ (disconnectService s name).sessions := by
  refine ⟨?_, ?_, rfl, ?_⟩
  · intro t ht
    show lookupTM (registerTools (disconnectService s svc).toolMap svc ts) t = some svc
    rw [lookup_registerTools]
    simp [ht]
  · exact List.mem_cons_self _ _
  · simp [disconnectService, List.mem_filter]

/-- C8, witness: the amended theorem at a one-service, one-tool state. -/
theorem c8_route_staleness_witness :
    lookupTM (connectServiceOk ⟨[], []⟩ "leave".data ["x".data]).toolMap "x".data =
      some "leave".data :=
  (c8_route_staleness ⟨[], []⟩ "leave".data ["x".data] "leave".data).1 "x".data (by decide)

/-! ## C9: chat-loop tool dispatch -/

/-- The tool-execution block always produces a message of role `tool`
keyed by the call id. -/
theorem execToolCall_shape (env : ChatEnv) (callId fname fargs : Str) :
    ∃ cont evs, execToolCall env callId fname fargs = (⟨"tool".data, callId, cont⟩, evs) := by
  unfold execToolCall
  rcases env.parseArgs fargs with m | a
  · exact ⟨_, _, rfl⟩
  · rcases lookupTM env.toolMap fname with _ | svc
    · exact ⟨_, _, rfl⟩
    · by_cases hs : env.hasSession svc
      · rcases hcall : env.call svc fname a with c | m
        · exact ⟨List.intercalate "\n".data (chatExtract c), [.dispatched fname a],
            by simp [hs, hcall]⟩
        · exact ⟨"Error executing tool ".data ++ fname ++ ": ".data ++ m,
            [.dispatched fname a], by simp [hs, hcall]⟩
      · exact ⟨"Error: Service ".data ++ svc ++ " unavailable for tool ".data ++
          fname ++ ".".data, [], by simp [hs]⟩

/-- C9, counterexample. With the parser failing (as `json.loads` does on an
empty arguments string) in an environment where routing, session and the
downstream call would all succeed, the chat loop dispatches nothing — there
is no fallback to an empty argument set — and the appended tool message
carries the exception text instead of a tool result. -/
theorem c9_counterexample :
    (execToolCall c9Env "c1".data "f".data "".data).2 = []
    ∧ (execToolCall c9Env "c1".data "f".data "".data).1.content =
        "Error executing tool f: Expecting value".data
    ∧ c9Env.call "s".data "f".data [] = .ok [.obj "text".data "ok".data] := by
  decide

/-- C9, amended. Each accumulated tool call yields exactly one tool-role
message keyed by its call id; the arguments string is JSON-parsed, and on
parse failure the call is not dispatched — the parse exception text becomes
the message content; when parsing, routing and session acquisition all
succeed the call is dispatched exactly once and a successful result's
text items, joined by newlines, become the message content. -/
theorem c9_tool_message (env : ChatEnv) (callId fname fargs : Str) :
    (execToolCall env callId fname fargs).1.role = "tool".data
    ∧ (execToolCall env callId fname fargs).1.tool_call_id = callId
    ∧ (∀ m, env.parseArgs fargs = .error m →
        (execToolCall env callId fname fargs).2 = []
        ∧ (execToolCall env callId fname fargs).1.content =
            "Error executing tool ".data ++ fname ++ ": ".data ++ m)
    ∧ (∀ a svc, env.parseArgs fargs = .ok a → lookupTM env.toolMap fname = some svc →
        env.hasSession svc = true →
        (execToolCall env callId fname fargs).2 = [.dispatched fname a]
        ∧ (∀ content, env.call svc fname a = .ok content →
            (execToolCall env callId fname fargs).1.content =
              List.intercalate "\n".data (chatExtract content))) := by
  obtain ⟨cont, evs, he⟩ := execToolCall_shape env callId fname fargs
  refine ⟨by rw [he], by rw [he], ?_, ?_⟩
  · intro m hp
    constructor
    · simp [execToolCall, hp]
    · simp [execToolCall, hp]
  · intro a svc hp hl hs
    constructor
    · rcases hc : env.call svc fname a with c | m
      · simp [execToolCall, hp, hl, hs, hc]
      · simp [execToolCall, hp, hl, hs, hc]
    · intro content hc
      simp [execToolCall, hp, hl, hs, hc]

/-- C9, witness: the amended theorem on an environment where parsing
succeeds with an empty object and the call returns one text item. -/
theorem c9_tool_message_witness :
    (execToolCall c9EnvOk "c1".data "f".data "\x7b\x7d".data).2 =
      [.dispatched "f".data []]
    ∧ (execToolCall c9EnvOk "c1".data "f".data "\x7b\x7d".data).1.content =
        List.intercalate "\n".data (chatExtract [.obj "text".data "ok".data]) := by
  have h := (c9_tool_message c9EnvOk "c1".data "f".data "\x7b\x7d".data).2.2.2 []
    "s".data rfl (by decide) rfl
  exact ⟨h.1, h.2 [.obj "text".data "ok".data] rfl⟩

/-! ## C10: accumulator totality on contiguous indices -/

/-- The element at the old length of a one-element extension. -/
theorem get_append_last {α : Type} (l : List α) (a : α)
    (h : l.length < (l ++ [a]).length) : (l ++ [a]).get ⟨l.length, h⟩ = a := by
  induction l with
  | nil => rfl
  | cons x xs ih => exact ih (by simp)

/-- Setting at the old length of a one-element extension replaces the
appended element. -/
theorem set_append_last {α : Type} (l : List α) (a b : α) :
    (l ++ [a]).set l.length b = l ++ [b] := by
  induction l with
  | nil => rfl
  | cons x xs ih =>
    show x :: ((xs ++ [a]).set xs.length b) = x :: (xs ++ [b])
    rw [ih]

/-- C10. The accumulator is total on contiguously indexed streams: a
fragment whose index is below the accumulator length concatenates its
chunks onto the entry at that index; a fragment whose index equals the
length first creates the entry by a single append and updates it. For some
fragment whose index exceeds the length (one carrying a truthy chunk) the
accumulation raises the out-of-range indexing error (modelled as `none`)
instead of creating the entry at that index; only a fragment with all
chunks falsy escapes the error there, keeping the spurious appended entry. -/
theorem c10_accumulator :
    (∀ (acc : List AccEntry) (f : Frag) (i : Nat) (h : f.index = some i)
        (hlt : i < acc.length),
        accumStep acc f = some (acc.set i (updateEntry (acc.get ⟨i, hlt⟩) f)))
    ∧ (∀ (acc : List AccEntry) (f : Frag) (i : Nat), f.index = some i →
        i = acc.length →
        accumStep acc f = some (acc ++ [updateEntry ⟨[], [], []⟩ f]))
    ∧ (∃ (acc : List AccEntry) (f : Frag) (i : Nat),
        f.index = some i ∧ acc.length < i ∧ accumStep acc f = none)
    ∧ (∀ (acc : List AccEntry) (f : Frag) (i : Nat), f.index = some i →
        acc.length < i →
        truthyChunk f.id = false → truthyChunk f.name = false →
        truthyChunk f.arguments = false →
        accumStep acc f = some (acc ++ [⟨[], [], []⟩])) := by
  refine ⟨?_, ?_, ?_, ?_⟩
  · intro acc f i h hlt
    simp [accumStep, h, Nat.not_le.mpr hlt, hlt]
  · intro acc f i h he
    subst he
    have hlt : acc.length < (acc ++ [(⟨[], [], []⟩ : AccEntry)]).length := by simp
    simp [accumStep, h, hlt, get_append_last, set_append_last]
  · exact ⟨[], ⟨some 1, some "x".data, none, none⟩, 1, rfl, by decide, by decide⟩
  · intro acc f i h hgt hid hname hargs
    have hle : acc.length ≤ i := Nat.le_of_lt hgt
    have hnlt : ¬ i < (acc ++ [(⟨[], [], []⟩ : AccEntry)]).length := by
      simp
      omega
    simp [accumStep, h, hle, hnlt, hid, hname, hargs]
    intro hcontra
    exact absurd hcontra (by omega)

/-- C10, witness: a fresh accumulator receiving the index-0 fragment. -/
theorem c10_accumulator_witness :
    accumStep [] ⟨some 0, some "a1".data, some "fn".data, some "ar".data⟩ =
      some [updateEntry ⟨[], [], []⟩
        ⟨some 0, some "a1".data, some "fn".data, some "ar".data⟩] :=
  c10_accumulator.2.1 [] ⟨some 0, some "a1".data, some "fn".data, some "ar".data⟩ 0 rfl rfl
